import Mathlib

/-!
# StntS: Strava activity to Slack notification

A shallow embedding of `main.go`: the message formatter with its integer and
binary64 arithmetic, the two JSON decoding steps, the webhook post and the
pipeline driver `exec` / `main`.
-/

namespace StntS

/-! ## Numbers and formatting -/

/-- Nearest natural number to `a / b`, a tie going to the even neighbour
(the rounding of IEEE 754 arithmetic and of `strconv` when it formats). -/
def roundNearestEven (a b : Nat) : Nat :=
  let q := a / b
  let r := a % b
  if 2 * r < b then q
  else if b < 2 * r then q + 1
  else if q % 2 = 0 then q else q + 1

/-- A finite `float64`. Every finite binary64 number is a multiple of
`2 ^ (-1074)`; `units` is that multiple and `neg` the sign bit. -/
structure Float64 where
  neg : Bool
  units : Nat
deriving DecidableEq, Repr

/-- Number of halvings that bring `n` below 2, that is `⌊log₂ n⌋` for
`n ≥ 1`; `fuel` bounds the number of halvings. -/
def log2Loop : Nat → Nat → Nat
  | 0, _ => 0
  | fuel + 1, n => if n < 2 then 0 else log2Loop fuel (n / 2) + 1

/-- Position of the leading bit of `n`. -/
def ilog2 (n : Nat) : Nat := log2Loop n n

/-- Units of the binary64 number nearest to `a / b` (ties to even), for
`b > 0`: the significand keeps 53 bits, or fewer in the subnormal range.
Overflow to infinity is not represented; the operands of this program are
64-bit integers and the constant 1000, far below the overflow threshold. -/
def binary64Round (a b : Nat) : Nat :=
  let scaled := a <<< 1074
  let k := ilog2 (scaled / b) - 52
  roundNearestEven scaled (b <<< k) <<< k

/-- The conversion `float64(i)` of a Go integer. -/
def float64 (i : Int) : Float64 :=
  { neg := decide (i < 0), units := binary64Round i.natAbs 1 }

/-- The quotient `x / y` of two `float64` values, `y` not zero. -/
def Float64.div (x y : Float64) : Float64 :=
  { neg := x.neg != y.neg, units := binary64Round x.units y.units }

/-- The two digits `fmt` writes after the decimal point for `n < 100`. -/
def twoDigits (n : Nat) : String :=
  toString (n / 10 % 10) ++ toString (n % 10)

/-- Hundredths shown by the verb `%.2f`: the exact value of `x` times 100,
rounded to the nearest integer, ties to even. -/
def Float64.hundredths (x : Float64) : Nat :=
  roundNearestEven (100 * x.units) (1 <<< 1074)

/-- The verb `%.2f` of `fmt.Sprintf` on a finite `float64`. -/
def formatFixed2 (x : Float64) : String :=
  (if x.neg then "-" else "") ++
    toString (x.hundredths / 100) ++ "." ++ twoDigits (x.hundredths % 100)

/-- The verb `%d` of `fmt.Sprintf` on an integer. -/
def formatInt (i : Int) : String :=
  if i < 0 then "-" ++ toString i.natAbs else toString i.natAbs

/-! ## Data model -/

/-- Activity of Strava. -/
structure Activity where
  ID : Int
  Name : String
  Distance : Int
  MovingTime : Int
deriving DecidableEq, Repr

/-- SlackMessage represents a message to be sent to Slack. -/
structure SlackMessage where
  Text : String
deriving DecidableEq, Repr

deriving instance DecidableEq for Except

/-- A run-time panic of the Go program. -/
inductive Panic where
  | nilDereference
deriving DecidableEq, Repr

/-- The expression `activity.MovingTime/60`: Go's `/` on integers truncates
toward zero, which is `Int.tdiv`. -/
def movingMinutes (a : Activity) : Int := a.MovingTime.tdiv 60

/-- The expression `float64(activity.Distance)/1000`; the untyped constant
1000 takes the type `float64`. -/
def distanceKm (a : Activity) : Float64 := (float64 a.Distance).div (float64 1000)

/-- `generateSlackMessage`: the argument is a pointer, `none` being `nil`;
reading a field through `nil` panics. -/
def generateSlackMessage (activity : Option Activity) : Except Panic SlackMessage :=
  match activity with
  | none => .error .nilDereference
  | some a =>
    .ok { Text := "New activity logged: " ++ a.Name ++ " (" ++
            formatFixed2 (distanceKm a) ++ " km, " ++
            formatInt (movingMinutes a) ++ " min)" }

/-! ## JSON documents and `encoding/json` decoding -/

/-- A JSON number literal: an integer literal, or one with a fraction or an
exponent part (`1.5`, `1e3`), which `strconv.ParseInt` rejects. -/
inductive Number where
  | integer (n : Int)
  | fractional

/-- A JSON document, strings and member names already unescaped. -/
inductive JSON where
  | null
  | bool (b : Bool)
  | number (n : Number)
  | string (s : String)
  | array (elems : List JSON)
  | object (members : List (String × JSON))

/-- The bytes of an HTTP body as `encoding/json` sees them: not valid JSON
(the empty body included), or the text of a document. -/
inductive Body where
  | malformed
  | document (doc : JSON)

/-- Go `error` values of this program. `transport` stands for the errors of
`net/http`, `net/url` and `io`; the two decode errors are
`*json.SyntaxError` and `*json.UnmarshalTypeError` (their offsets and
descriptions are not kept); `errorf` is an error made by `fmt.Errorf`. -/
inductive GoError where
  | transport (msg : String)
  | syntaxError
  | unmarshalTypeError
  | errorf (text : String)
deriving DecidableEq, Repr

/-- Case folding of `encoding/json` on one rune of a member name, as far as
it can reach an ASCII letter: lower case to upper case, and the two
non-ASCII runes that fold to a letter, U+017F to `S` and U+212A to `K`. -/
def foldRune (c : Char) : Char :=
  if 'a' ≤ c ∧ c ≤ 'z' then Char.ofNat (c.toNat - 32)
  else if c = Char.ofNat 0x17F then 'S'
  else if c = Char.ofNat 0x212A then 'K'
  else c

/-- Whether the member name `key` selects the struct field tagged `name`
(an ASCII name): `encoding/json` matches exactly or case-insensitively. -/
def fieldMatch (name key : String) : Bool :=
  name.toList.map foldRune == key.toList.map foldRune

/-- Storing a JSON value into a `string` field holding `old`. -/
def storeString (old : String) : JSON → Except GoError String
  | .null => .ok old
  | .string s => .ok s
  | _ => .error .unmarshalTypeError

/-- Storing a JSON value into a signed integer field of `bits` bits. -/
def storeInt (bits : Nat) (old : Int) : JSON → Except GoError Int
  | .null => .ok old
  | .number (.integer n) =>
    if -(2 ^ (bits - 1) : Int) ≤ n ∧ n < 2 ^ (bits - 1) then .ok n
    else .error .unmarshalTypeError
  | _ => .error .unmarshalTypeError

/-- Size of Go's `int` (64 on amd64 and arm64). -/
def intSize : Nat := 64

/-- The anonymous struct `accessToken` of `getAccessToken`. -/
structure AccessToken where
  Token : String
deriving DecidableEq, Repr

/-- One member of a JSON object decoded into `accessToken`. -/
def AccessToken.setField (t : AccessToken) (kv : String × JSON) : Except GoError AccessToken :=
  if fieldMatch "access_token" kv.1 then
    (storeString t.Token kv.2).map fun s => { t with Token := s }
  else .ok t

/-- `json.Unmarshal(body, &accessToken)`, the struct zero at the start. -/
def unmarshalAccessToken : Body → Except GoError AccessToken
  | .malformed => .error .syntaxError
  | .document .null => .ok { Token := "" }
  | .document (.object members) => members.foldlM AccessToken.setField { Token := "" }
  | .document _ => .error .unmarshalTypeError

/-- One member of a JSON object decoded into an `Activity`. -/
def Activity.setField (a : Activity) (kv : String × JSON) : Except GoError Activity :=
  if fieldMatch "id" kv.1 then
    (storeInt 64 a.ID kv.2).map fun n => { a with ID := n }
  else if fieldMatch "name" kv.1 then
    (storeString a.Name kv.2).map fun s => { a with Name := s }
  else if fieldMatch "distance" kv.1 then
    (storeInt intSize a.Distance kv.2).map fun n => { a with Distance := n }
  else if fieldMatch "moving_time" kv.1 then
    (storeInt intSize a.MovingTime kv.2).map fun n => { a with MovingTime := n }
  else .ok a

/-- Decoding one array element into a `*Activity`: `null` gives the `nil`
pointer, an object a fresh `Activity`. -/
def decodeActivityPtr : JSON → Except GoError (Option Activity)
  | .null => .ok none
  | .object members =>
    (members.foldlM Activity.setField { ID := 0, Name := "", Distance := 0, MovingTime := 0 }).map some
  | _ => .error .unmarshalTypeError

/-- `json.Unmarshal(body, &activities)` for `var activities []*Activity`. -/
def unmarshalActivities : Body → Except GoError (List (Option Activity))
  | .malformed => .error .syntaxError
  | .document .null => .ok []
  | .document (.array elems) => elems.mapM decodeActivityPtr
  | .document _ => .error .unmarshalTypeError

/-- `json.Marshal(message)` for a `*SlackMessage`, as a document. -/
def marshalSlackMessage (message : SlackMessage) : JSON :=
  .object [("text", .string message.Text)]

/-! ## HTTP -/

/-- What a request carries as its body. -/
inductive Payload where
  | empty
  | form (values : List (String × String))
  | json (doc : JSON)

/-- An outgoing `http.Request`. -/
structure Request where
  Method : String
  URL : String
  Header : List (String × String)
  Body : Payload

/-- A received `http.Response`: its status code and what `ioutil.ReadAll`
gives on its body. -/
structure Response where
  StatusCode : Int
  Body : Except GoError Body

/-- The outside world: what `client.Do` answers to a request, and the error
with which `http.NewRequest` rejects a URL, if any. -/
structure Network where
  roundTrip : Request → Except GoError Response
  newRequestError : String → Option GoError

/-- What the program does, in order: the calls of its three I/O functions
and the requests handed to `client.Do`. -/
inductive Event where
  | getAccessToken (clientID clientSecret code : String)
  | getLatestActivity (accessToken : String)
  | postToSlack (webhookURL : String) (message : SlackMessage)
  | send (req : Request)

/-- The request built by `postToSlack`. -/
def slackRequest (webhookURL : String) (message : SlackMessage) : Request :=
  { Method := "POST", URL := webhookURL, Header := [],
    Body := .json (marshalSlackMessage message) }

/-- `postToSlack` sends a message to the specified Slack webhook URL.
`json.Marshal` cannot fail on a `SlackMessage`. -/
def postToSlack (net : Network) (webhookURL : String) (message : SlackMessage) :
    List Event × Option GoError :=
  let called := Event.postToSlack webhookURL message
  match net.newRequestError webhookURL with
  | some err => ([called], some err)
  | none =>
    let req := slackRequest webhookURL message
    match net.roundTrip req with
    | .error err => ([called, .send req], some err)
    | .ok resp =>
      if resp.StatusCode ≠ 200 then
        ([called, .send req],
          some (.errorf ("failed to post to Slack: status code " ++ formatInt resp.StatusCode)))
      else ([called, .send req], none)

/-- The request built by `getAccessToken`; `values.Encode()` orders the
form by key. -/
def tokenRequest (clientID clientSecret code : String) : Request :=
  { Method := "POST", URL := "https://www.strava.com/oauth/token",
    Header := [("Content-Type", "application/x-www-form-urlencoded")],
    Body := .form [("client_id", clientID), ("client_secret", clientSecret),
      ("code", code), ("grant_type", "authorization_code")] }

/-- `getAccessToken`: the token and the error it returns, after its events. -/
def getAccessToken (net : Network) (clientID clientSecret code : String) :
    List Event × String × Option GoError :=
  let req := tokenRequest clientID clientSecret code
  let events := [Event.getAccessToken clientID clientSecret code, .send req]
  match net.roundTrip req with
  | .error err => (events, "", some err)
  | .ok resp =>
    match resp.Body with
    | .error err => (events, "", some err)
    | .ok body =>
      match unmarshalAccessToken body with
      | .error err => (events, "", some err)
      | .ok accessToken => (events, accessToken.Token, none)

/-- The request built by `getLatestActivity`. -/
def activityRequest (accessToken : String) : Request :=
  { Method := "GET", URL := "https://www.strava.com/api/v3/athlete/activities?per_page=1",
    Header := [("Authorization", "Bearer " ++ accessToken)],
    Body := .empty }

/-- `getLatestActivity`: the activity pointer and the error it returns. -/
def getLatestActivity (net : Network) (accessToken : String) :
    List Event × Option Activity × Option GoError :=
  let req := activityRequest accessToken
  let events := [Event.getLatestActivity accessToken, .send req]
  match net.roundTrip req with
  | .error err => (events, none, some err)
  | .ok resp =>
    match resp.Body with
    | .error err => (events, none, some err)
    | .ok body =>
      match unmarshalActivities body with
      | .error err => (events, none, some err)
      | .ok activities =>
        match activities with
        | [] => (events, none, some (.errorf "no activities found"))
        | first :: _ => (events, first, none)

/-! ## The pipeline -/

/-- How a call of `exec` ends: it returns an error value (`none` is `nil`),
or it panics. -/
inductive Outcome where
  | returned (err : Option GoError)
  | panicked (p : Panic)
deriving DecidableEq, Repr

/-- `exec`, the pipeline driver. -/
def exec (net : Network) (clientID clientSecret code webhookURL : String) :
    List Event × Outcome :=
  match getAccessToken net clientID clientSecret code with
  | (ev1, _, some err) => (ev1, .returned (some err))
  | (ev1, resp, none) =>
    match getLatestActivity net resp with
    | (ev2, _, some err) => (ev1 ++ ev2, .returned (some err))
    | (ev2, activity, none) =>
      match generateSlackMessage activity with
      | .error p => (ev1 ++ ev2, .panicked p)
      | .ok message =>
        match postToSlack net webhookURL message with
        | (ev3, some err) => (ev1 ++ ev2 ++ ev3, .returned (some err))
        | (ev3, none) => (ev1 ++ ev2 ++ ev3, .returned none)

/-- How the process ends: its exit status and what `log.Println` wrote. -/
structure Exit where
  status : Nat
  logged : List GoError
deriving DecidableEq, Repr

/-- The end of `main` after `exec`: `os.Exit(0)` on `nil`, the error logged
and `os.Exit(1)` otherwise; an unrecovered panic ends a Go process with
status 2. -/
def exitOf : Outcome → Exit
  | .returned none => { status := 0, logged := [] }
  | .returned (some err) => { status := 1, logged := [err] }
  | .panicked _ => { status := 2, logged := [] }

/-- `main`: the configuration is read from the environment `getenv`. -/
def main (net : Network) (getenv : String → String) : List Event × Exit :=
  let run := exec net (getenv "CLIENT_ID") (getenv "CLIENT_SECRET") (getenv "CODE")
    (getenv "WEBHOOK_URL")
  (run.1, exitOf run.2)

/-! ## Sample inputs -/

/-- A network whose token endpoint answers `tokenBody`, whose activities
endpoint answers `activityBody`, both with status `status`, and where every
other URL (the webhook) answers `slackStatus`. -/
def serve (status : Int) (tokenBody activityBody : Body) (slackStatus : Int) : Network :=
  { roundTrip := fun req =>
      if req.URL = "https://www.strava.com/oauth/token" then
        .ok { StatusCode := status, Body := .ok tokenBody }
      else if req.URL = "https://www.strava.com/api/v3/athlete/activities?per_page=1" then
        .ok { StatusCode := status, Body := .ok activityBody }
      else .ok { StatusCode := slackStatus, Body := .ok .malformed }
    newRequestError := fun _ => none }

/-- The body `{"access_token":"abc"}`. -/
def tokenAbc : Body := .document (.object [("access_token", .string "abc")])

/-- The body `{"message":"Bad Request"}`. -/
def badRequest : Body := .document (.object [("message", .string "Bad Request")])

/-- The activity of the end-to-end scenario. -/
def morningRun : Activity :=
  { ID := 1, Name := "Morning Run", Distance := 10000, MovingTime := 3600 }

/-- The body `[{"id":1,"name":"Morning Run","distance":10000,"moving_time":3600}]`. -/
def morningRunBody : Body :=
  .document (.array [.object [("id", .number (.integer 1)), ("name", .string "Morning Run"),
    ("distance", .number (.integer 10000)), ("moving_time", .number (.integer 3600))]])

/-- The body `[]`. -/
def emptyArrayBody : Body := .document (.array [])

/-- The body `[null]`. -/
def nullElementBody : Body := .document (.array [.null])

/-- An environment holding the four variables. -/
def sampleEnv (name : String) : String :=
  if name = "CLIENT_ID" then "id"
  else if name = "CLIENT_SECRET" then "secret"
  else if name = "CODE" then "code"
  else if name = "WEBHOOK_URL" then "hook"
  else ""

/-! ## Formatter -/

theorem tdiv_sixty_eq (t : Int) :
    t.tdiv 60 = if 0 ≤ t then ⌊(t : ℚ) / 60⌋ else ⌈(t : ℚ) / 60⌉ := by
  have hfloor : ∀ n : Int, ⌊(n : ℚ) / 60⌋ = n / 60 := fun n => by
    have := Rat.floor_intCast_div_natCast n 60
    simpa using this
  split_ifs with h
  · rw [hfloor, Int.tdiv_eq_ediv h (by decide)]
  · have hneg : (t : ℚ) / 60 = -(((-t : Int) : ℚ) / 60) := by push_cast; ring
    have h' : 0 ≤ -t := by omega
    rw [hneg, Int.ceil_neg, hfloor, ← Int.tdiv_eq_ediv h' (by decide), Int.neg_tdiv, neg_neg]

/-- C1 (amended): the minutes figure written into the message text is the
moving time divided by 60 and truncated toward zero, that is `floor(t/60)`
for `t ≥ 0` and `ceil(t/60)` for `t < 0`. -/
theorem C1_minutes_truncate_toward_zero (a : Activity) :
    movingMinutes a =
        (if 0 ≤ a.MovingTime then ⌊(a.MovingTime : ℚ) / 60⌋ else ⌈(a.MovingTime : ℚ) / 60⌉) ∧
      generateSlackMessage (some a) =
        .ok { Text := "New activity logged: " ++ a.Name ++ " (" ++
          formatFixed2 (distanceKm a) ++ " km, " ++ formatInt (movingMinutes a) ++ " min)" } :=
  ⟨tdiv_sixty_eq a.MovingTime, rfl⟩

set_option maxRecDepth 100000 in
/-- C1 (counterexample): for a moving time of -1 second the message says
`0 min`, while `floor(-1/60)` is -1. -/
theorem C1_floor_fails_for_minus_one :
    generateSlackMessage (some { ID := 0, Name := "n", Distance := 0, MovingTime := -1 }) =
        .ok { Text := "New activity logged: n (0.00 km, 0 min)" } ∧
      movingMinutes { ID := 0, Name := "n", Distance := 0, MovingTime := -1 } = 0 ∧
      ⌊((-1 : Int) : ℚ) / 60⌋ = -1 := by
  refine ⟨by decide, by decide, ?_⟩
  rw [Int.floor_eq_iff]
  norm_num

/-! ## Token exchange -/

theorem foldlM_setField_skip (members : List (String × JSON)) (t : AccessToken)
    (h : ∀ kv ∈ members, fieldMatch "access_token" kv.1 = false) :
    members.foldlM AccessToken.setField t = .ok t := by
  induction members with
  | nil => rfl
  | cons kv rest ih =>
    have hkv := h kv (List.mem_cons_self _ _)
    have hrest := ih fun x hx => h x (List.mem_cons_of_mem _ hx)
    rw [List.foldlM_cons]
    simp only [AccessToken.setField, hkv]
    exact hrest

theorem foldlM_setField_filter (members : List (String × JSON)) (t : AccessToken) :
    members.foldlM AccessToken.setField t =
      (members.filter fun kv => fieldMatch "access_token" kv.1).foldlM AccessToken.setField t := by
  induction members generalizing t with
  | nil => rfl
  | cons kv rest ih =>
    cases hkv : fieldMatch "access_token" kv.1 with
    | true =>
      simp only [List.filter_cons, hkv, if_true, List.foldlM_cons]
      cases AccessToken.setField t kv with
      | error e => rfl
      | ok t' => exact ih t'
    | false =>
      simp only [List.filter_cons, hkv, List.foldlM_cons, AccessToken.setField,
        Bool.false_eq_true, if_false]
      exact ih t

theorem unmarshalAccessToken_single (members : List (String × JSON)) (v : String)
    (h : (members.filter fun kv => fieldMatch "access_token" kv.1).map Prod.snd = [.string v]) :
    unmarshalAccessToken (.document (.object members)) = .ok { Token := v } := by
  obtain ⟨kv, rest, hkv, hv, hrest⟩ := List.map_eq_cons_iff.mp h
  rw [List.map_eq_nil_iff] at hrest
  subst hrest
  have hmem : kv ∈ members.filter fun kv => fieldMatch "access_token" kv.1 := by
    rw [hkv]; exact List.mem_singleton_self _
  have hmatch : fieldMatch "access_token" kv.1 = true := by
    simpa using (List.mem_filter.mp hmem).2
  show members.foldlM AccessToken.setField { Token := "" } = _
  rw [foldlM_setField_filter, hkv, List.foldlM_cons]
  simp only [AccessToken.setField, hmatch, hv, storeString, if_true]
  rfl

/-- C2 (amended): on a received response whose body was read,
`getAccessToken` fails with a decode error when the body is not valid JSON;
when the body is a JSON object with no `access_token` member it returns the
empty token and no error. -/
theorem C2_malformed_fails_missing_field_succeeds (net : Network)
    (clientID clientSecret code : String) (resp : Response) (body : Body)
    (hsend : net.roundTrip (tokenRequest clientID clientSecret code) = .ok resp)
    (hread : resp.Body = .ok body) :
    (body = .malformed →
        (getAccessToken net clientID clientSecret code).2 = ("", some .syntaxError)) ∧
      (∀ members, body = .document (.object members) →
        (∀ kv ∈ members, fieldMatch "access_token" kv.1 = false) →
        (getAccessToken net clientID clientSecret code).2 = ("", none)) := by
  constructor
  · intro hbody
    subst hbody
    simp only [getAccessToken, hsend, hread, unmarshalAccessToken]
  · intro members hbody hmiss
    subst hbody
    have hdec : unmarshalAccessToken (.document (.object members)) = .ok { Token := "" } :=
      foldlM_setField_skip members _ hmiss
    simp only [getAccessToken, hsend, hread, hdec]

/-- C2 (witness): the body `{"message":"Bad Request"}`. -/
theorem C2_malformed_fails_missing_field_succeeds_witness :
    (getAccessToken (serve 400 badRequest emptyArrayBody 200) "id" "secret" "code").2 =
      ("", none) :=
  (C2_malformed_fails_missing_field_succeeds (serve 400 badRequest emptyArrayBody 200)
    "id" "secret" "code" { StatusCode := 400, Body := .ok badRequest } badRequest rfl rfl).2
    [("message", .string "Bad Request")] rfl (by decide)

/-- C2 (counterexample): for the body `{"message":"Bad Request"}`, which has
no `access_token` member, `getAccessToken` returns no error. -/
theorem C2_missing_field_is_no_error :
    (getAccessToken (serve 400 badRequest emptyArrayBody 200) "id" "secret" "code").2.2 = none ∧
      (getAccessToken (serve 400 badRequest emptyArrayBody 200) "id" "secret" "code").2.1 = "" := by
  constructor <;> rfl

/-- C8: `getAccessToken` does not look at the status code. Two received
responses with the same body give the same token and the same error, and a
JSON object whose `access_token` member is the string `v` gives the token
`v` and no error, whatever the status code. -/
theorem C8_status_code_is_ignored (net net' : Network) (clientID clientSecret code : String)
    (status status' : Int) (body : Except GoError Body)
    (hsend : net.roundTrip (tokenRequest clientID clientSecret code) =
      .ok { StatusCode := status, Body := body })
    (hsend' : net'.roundTrip (tokenRequest clientID clientSecret code) =
      .ok { StatusCode := status', Body := body }) :
    getAccessToken net clientID clientSecret code =
        getAccessToken net' clientID clientSecret code ∧
      (∀ members v, body = .ok (.document (.object members)) →
        (members.filter fun kv => fieldMatch "access_token" kv.1).map Prod.snd = [.string v] →
        (getAccessToken net clientID clientSecret code).2 = (v, none)) := by
  constructor
  · simp only [getAccessToken, hsend, hsend']
  · intro members v hbody hfield
    subst hbody
    simp only [getAccessToken, hsend, unmarshalAccessToken_single members v hfield]

/-- C8 (witness): the body `{"access_token":"abc"}` under status 200 and
under status 401. -/
theorem C8_status_code_is_ignored_witness :
    getAccessToken (serve 200 tokenAbc emptyArrayBody 200) "id" "secret" "code" =
        getAccessToken (serve 401 tokenAbc emptyArrayBody 200) "id" "secret" "code" ∧
      (getAccessToken (serve 401 tokenAbc emptyArrayBody 200) "id" "secret" "code").2 =
        ("abc", none) :=
  ⟨(C8_status_code_is_ignored (serve 200 tokenAbc emptyArrayBody 200)
      (serve 401 tokenAbc emptyArrayBody 200) "id" "secret" "code" 200 401 (.ok tokenAbc)
      rfl rfl).1,
    (C8_status_code_is_ignored (serve 401 tokenAbc emptyArrayBody 200)
      (serve 200 tokenAbc emptyArrayBody 200) "id" "secret" "code" 401 200 (.ok tokenAbc)
      rfl rfl).2 [("access_token", .string "abc")] "abc" rfl rfl⟩

/-! ## Activity fetch -/

/-- C3: when the body decodes to a sequence of activities,
`getLatestActivity` returns its first element and no error if there is one,
and no activity with the error "no activities found" if the sequence is
empty. -/
theorem C3_first_element_or_not_found (net : Network) (accessToken : String)
    (resp : Response) (body : Body) (activities : List (Option Activity))
    (hsend : net.roundTrip (activityRequest accessToken) = .ok resp)
    (hread : resp.Body = .ok body)
    (hdecode : unmarshalActivities body = .ok activities) :
    (getLatestActivity net accessToken).2 =
      match activities with
      | [] => (none, some (.errorf "no activities found"))
      | first :: _ => (first, none) := by
  simp only [getLatestActivity, hsend, hread, hdecode]
  cases activities <;> rfl

/-- C3 (witness): a body with one activity. -/
theorem C3_first_element_or_not_found_witness :
    (getLatestActivity (serve 200 tokenAbc morningRunBody 200) "abc").2 =
      (some morningRun, none) :=
  C3_first_element_or_not_found (serve 200 tokenAbc morningRunBody 200) "abc"
    { StatusCode := 200, Body := .ok morningRunBody } morningRunBody [some morningRun]
    rfl rfl (by decide)

/-- C10 (failing input): for the body `[null]`, `getLatestActivity` returns
the `nil` pointer with no error, and `exec` then panics while
`generateSlackMessage` reads its fields. -/
theorem C10_null_element_gives_nil_and_panic :
    (getLatestActivity (serve 200 tokenAbc nullElementBody 200) "abc").2 = (none, none) ∧
      (exec (serve 200 tokenAbc nullElementBody 200) "id" "secret" "code" "hook").2 =
        .panicked .nilDereference := by
  constructor <;> rfl

/-! ## Webhook post -/

/-- C4: on a received webhook response, `postToSlack` succeeds exactly when
the status code is 200, and for any other status code `s` it returns the
error "failed to post to Slack: status code s". -/
theorem C4_success_iff_status_ok (net : Network) (webhookURL : String)
    (message : SlackMessage) (resp : Response)
    (hnew : net.newRequestError webhookURL = none)
    (hsend : net.roundTrip (slackRequest webhookURL message) = .ok resp) :
    ((postToSlack net webhookURL message).2 = none ↔ resp.StatusCode = 200) ∧
      (resp.StatusCode ≠ 200 →
        (postToSlack net webhookURL message).2 =
          some (.errorf ("failed to post to Slack: status code " ++
            formatInt resp.StatusCode))) := by
  by_cases hs : resp.StatusCode = 200 <;> simp [postToSlack, hnew, hsend, hs]

/-- C4 (witness): status 500. -/
theorem C4_success_iff_status_ok_witness :
    (postToSlack (serve 200 tokenAbc morningRunBody 500) "hook" { Text := "hi" }).2 =
      some (.errorf "failed to post to Slack: status code 500") :=
  (C4_success_iff_status_ok (serve 200 tokenAbc morningRunBody 500) "hook" { Text := "hi" }
    { StatusCode := 500, Body := .ok .malformed } rfl rfl).2 (by decide)

/-! ## Pipeline driver -/

theorem getAccessToken_events (net : Network) (clientID clientSecret code : String) :
    (getAccessToken net clientID clientSecret code).1 =
      [.getAccessToken clientID clientSecret code,
        .send (tokenRequest clientID clientSecret code)] := by
  simp only [getAccessToken]
  repeat' split
  all_goals rfl

theorem getLatestActivity_events (net : Network) (accessToken : String) :
    (getLatestActivity net accessToken).1 =
      [.getLatestActivity accessToken, .send (activityRequest accessToken)] := by
  simp only [getLatestActivity]
  repeat' split
  all_goals rfl

theorem exec_token_error (net : Network) (clientID clientSecret code webhookURL : String)
    (err : GoError) (h : (getAccessToken net clientID clientSecret code).2.2 = some err) :
    exec net clientID clientSecret code webhookURL =
      ((getAccessToken net clientID clientSecret code).1, .returned (some err)) := by
  rcases hr : getAccessToken net clientID clientSecret code with ⟨ev1, tok, e1⟩
  rw [hr] at h
  simp only at h
  subst h
  simp only [exec, hr]

theorem exec_activity_error (net : Network) (clientID clientSecret code webhookURL : String)
    (tok : String) (err : GoError)
    (h1 : (getAccessToken net clientID clientSecret code).2 = (tok, none))
    (h2 : (getLatestActivity net tok).2.2 = some err) :
    exec net clientID clientSecret code webhookURL =
      ((getAccessToken net clientID clientSecret code).1 ++ (getLatestActivity net tok).1,
        .returned (some err)) := by
  rcases hr : getAccessToken net clientID clientSecret code with ⟨ev1, tok1, e1⟩
  rw [hr] at h1
  simp only [Prod.mk.injEq] at h1
  obtain ⟨rfl, rfl⟩ := h1
  rcases hr2 : getLatestActivity net tok1 with ⟨ev2, act, e2⟩
  rw [hr2] at h2
  simp only at h2
  subst h2
  simp only [exec, hr, hr2]

theorem exec_panic (net : Network) (clientID clientSecret code webhookURL : String)
    (tok : String) (activity : Option Activity) (p : Panic)
    (h1 : (getAccessToken net clientID clientSecret code).2 = (tok, none))
    (h2 : (getLatestActivity net tok).2 = (activity, none))
    (h3 : generateSlackMessage activity = .error p) :
    exec net clientID clientSecret code webhookURL =
      ((getAccessToken net clientID clientSecret code).1 ++ (getLatestActivity net tok).1,
        .panicked p) := by
  rcases hr : getAccessToken net clientID clientSecret code with ⟨ev1, tok1, e1⟩
  rw [hr] at h1
  simp only [Prod.mk.injEq] at h1
  obtain ⟨rfl, rfl⟩ := h1
  rcases hr2 : getLatestActivity net tok1 with ⟨ev2, act, e2⟩
  rw [hr2] at h2
  simp only [Prod.mk.injEq] at h2
  obtain ⟨rfl, rfl⟩ := h2
  simp only [exec, hr, hr2, h3]

theorem exec_post (net : Network) (clientID clientSecret code webhookURL : String)
    (tok : String) (activity : Option Activity) (message : SlackMessage)
    (h1 : (getAccessToken net clientID clientSecret code).2 = (tok, none))
    (h2 : (getLatestActivity net tok).2 = (activity, none))
    (h3 : generateSlackMessage activity = .ok message) :
    exec net clientID clientSecret code webhookURL =
      ((getAccessToken net clientID clientSecret code).1 ++ (getLatestActivity net tok).1 ++
          (postToSlack net webhookURL message).1,
        .returned (postToSlack net webhookURL message).2) := by
  rcases hr : getAccessToken net clientID clientSecret code with ⟨ev1, tok1, e1⟩
  rw [hr] at h1
  simp only [Prod.mk.injEq] at h1
  obtain ⟨rfl, rfl⟩ := h1
  rcases hr2 : getLatestActivity net tok1 with ⟨ev2, act, e2⟩
  rw [hr2] at h2
  simp only [Prod.mk.injEq] at h2
  obtain ⟨rfl, rfl⟩ := h2
  rcases hr3 : postToSlack net webhookURL message with ⟨ev3, e3⟩
  cases e3 <;> simp only [exec, hr, hr2, h3, hr3]

/-- The ways a run of `exec` can go, by the results of its steps. -/
theorem exec_cases (net : Network) (clientID clientSecret code : String) :
    (∃ err, (getAccessToken net clientID clientSecret code).2.2 = some err) ∨
      ∃ tok, (getAccessToken net clientID clientSecret code).2 = (tok, none) ∧
        ((∃ err, (getLatestActivity net tok).2.2 = some err) ∨
          ∃ activity, (getLatestActivity net tok).2 = (activity, none) ∧
            ((∃ p, generateSlackMessage activity = .error p) ∨
              ∃ message, generateSlackMessage activity = .ok message)) := by
  rcases getAccessToken net clientID clientSecret code with ⟨ev1, tok, e1⟩
  cases e1 with
  | some err => exact .inl ⟨err, rfl⟩
  | none =>
    refine .inr ⟨tok, rfl, ?_⟩
    rcases getLatestActivity net tok with ⟨ev2, act, e2⟩
    cases e2 with
    | some err => exact .inl ⟨err, rfl⟩
    | none =>
      refine .inr ⟨act, rfl, ?_⟩
      cases generateSlackMessage act with
      | error p => exact .inl ⟨p, rfl⟩
      | ok message => exact .inr ⟨message, rfl⟩

theorem postToSlack_events (net : Network) (webhookURL : String) (message : SlackMessage) :
    (postToSlack net webhookURL message).1 = [.postToSlack webhookURL message] ∨
      (postToSlack net webhookURL message).1 =
        [.postToSlack webhookURL message, .send (slackRequest webhookURL message)] := by
  simp only [postToSlack]
  repeat' split
  all_goals simp

/-- C5: in `exec` a step runs only if every earlier step succeeded. If
`getAccessToken` fails, nothing else is called; if `getLatestActivity` fails,
as it does on the body `[]`, `postToSlack` is not called and `exec` returns
the error, so that `main` exits with status 1. -/
theorem C5_steps_run_only_after_success (net : Network)
    (clientID clientSecret code webhookURL : String) :
    (∀ err, (getAccessToken net clientID clientSecret code).2.2 = some err →
        exec net clientID clientSecret code webhookURL =
          ([.getAccessToken clientID clientSecret code,
              .send (tokenRequest clientID clientSecret code)],
            .returned (some err))) ∧
      (∀ tok err, (getAccessToken net clientID clientSecret code).2 = (tok, none) →
        (getLatestActivity net tok).2.2 = some err →
        exec net clientID clientSecret code webhookURL =
          ([.getAccessToken clientID clientSecret code,
              .send (tokenRequest clientID clientSecret code),
              .getLatestActivity tok, .send (activityRequest tok)],
            .returned (some err))) ∧
      (∀ tok resp, (getAccessToken net clientID clientSecret code).2 = (tok, none) →
        net.roundTrip (activityRequest tok) = .ok resp → resp.Body = .ok emptyArrayBody →
        exec net clientID clientSecret code webhookURL =
          ([.getAccessToken clientID clientSecret code,
              .send (tokenRequest clientID clientSecret code),
              .getLatestActivity tok, .send (activityRequest tok)],
            .returned (some (.errorf "no activities found")))) ∧
      (∀ tok, Event.getLatestActivity tok ∈ (exec net clientID clientSecret code webhookURL).1 →
        (getAccessToken net clientID clientSecret code).2 = (tok, none)) ∧
      (∀ url message,
        Event.postToSlack url message ∈ (exec net clientID clientSecret code webhookURL).1 →
        ∃ tok activity, (getAccessToken net clientID clientSecret code).2 = (tok, none) ∧
          (getLatestActivity net tok).2 = (activity, none) ∧
          generateSlackMessage activity = .ok message) ∧
      (∀ getenv err,
        (exec net (getenv "CLIENT_ID") (getenv "CLIENT_SECRET") (getenv "CODE")
          (getenv "WEBHOOK_URL")).2 = .returned (some err) →
        (main net getenv).2.status = 1) := by
  have htokenFail : ∀ err, (getAccessToken net clientID clientSecret code).2.2 = some err →
      exec net clientID clientSecret code webhookURL =
        ([.getAccessToken clientID clientSecret code,
            .send (tokenRequest clientID clientSecret code)],
          .returned (some err)) := fun err h => by
    rw [exec_token_error net clientID clientSecret code webhookURL err h,
      getAccessToken_events]
  have hactivityFail : ∀ tok err,
      (getAccessToken net clientID clientSecret code).2 = (tok, none) →
      (getLatestActivity net tok).2.2 = some err →
      exec net clientID clientSecret code webhookURL =
        ([.getAccessToken clientID clientSecret code,
            .send (tokenRequest clientID clientSecret code),
            .getLatestActivity tok, .send (activityRequest tok)],
          .returned (some err)) := fun tok err h1 h2 => by
    rw [exec_activity_error net clientID clientSecret code webhookURL tok err h1 h2,
      getAccessToken_events, getLatestActivity_events]
    rfl
  refine ⟨htokenFail, hactivityFail, ?_, ?_, ?_, ?_⟩
  · intro tok resp h1 hsend hread
    apply hactivityFail tok _ h1
    simp only [getLatestActivity, hsend, hread]
    rfl
  · intro tok hmem
    rcases exec_cases net clientID clientSecret code with ⟨err, h⟩ | ⟨tok1, h1, hrest⟩
    · rw [htokenFail err h] at hmem
      simp at hmem
    · have hev : ∀ l : List Event,
          Event.getLatestActivity tok ∈
            (getAccessToken net clientID clientSecret code).1 ++
              (getLatestActivity net tok1).1 ++ l →
          (∀ e ∈ l, ∀ t, e ≠ Event.getLatestActivity t) → tok = tok1 := by
        intro l hl hne
        rw [getAccessToken_events, getLatestActivity_events] at hl
        simp only [List.mem_append, List.mem_cons, List.mem_singleton, List.not_mem_nil,
          or_false, Event.getLatestActivity.injEq] at hl
        rcases hl with ((h | h) | (h | h)) | h
        · exact absurd h (by simp)
        · exact absurd h (by simp)
        · exact h
        · exact absurd h (by simp)
        · exact absurd rfl (hne _ h tok)
      rcases hrest with ⟨err, h2⟩ | ⟨activity, h2, ⟨p, h3⟩ | ⟨message, h3⟩⟩
      · rw [exec_activity_error net clientID clientSecret code webhookURL tok1 err h1 h2]
          at hmem
        have := hev [] (by simpa using hmem) (by simp)
        rw [this]; exact h1
      · rw [exec_panic net clientID clientSecret code webhookURL tok1 activity p h1 h2 h3]
          at hmem
        have := hev [] (by simpa using hmem) (by simp)
        rw [this]; exact h1
      · rw [exec_post net clientID clientSecret code webhookURL tok1 activity message h1 h2 h3]
          at hmem
        have := hev _ hmem (by
          rcases postToSlack_events net webhookURL message with h | h <;> rw [h] <;> simp)
        rw [this]; exact h1
  · intro url message hmem
    rcases exec_cases net clientID clientSecret code with ⟨err, h⟩ | ⟨tok1, h1, hrest⟩
    · rw [htokenFail err h] at hmem
      simp at hmem
    · rcases hrest with ⟨err, h2⟩ | ⟨activity, h2, ⟨p, h3⟩ | ⟨msg, h3⟩⟩
      · rw [hactivityFail tok1 err h1 h2] at hmem
        simp at hmem
      · rw [exec_panic net clientID clientSecret code webhookURL tok1 activity p h1 h2 h3,
          getAccessToken_events, getLatestActivity_events] at hmem
        simp at hmem
      · rw [exec_post net clientID clientSecret code webhookURL tok1 activity msg h1 h2 h3,
          getAccessToken_events, getLatestActivity_events] at hmem
        refine ⟨tok1, activity, h1, h2, ?_⟩
        rcases postToSlack_events net webhookURL msg with h | h <;> rw [h] at hmem <;>
          simp at hmem <;> rw [hmem.2] <;> exact h3
  · intro getenv err h
    simp only [main, h, exitOf]

/-- C5 (witness): the activities endpoint answers `[]`. -/
theorem C5_steps_run_only_after_success_witness :
    exec (serve 200 tokenAbc emptyArrayBody 200) "id" "secret" "code" "hook" =
        ([.getAccessToken "id" "secret" "code", .send (tokenRequest "id" "secret" "code"),
            .getLatestActivity "abc", .send (activityRequest "abc")],
          .returned (some (.errorf "no activities found"))) ∧
      (main (serve 200 tokenAbc emptyArrayBody 200) fun _ => "x").2.status = 1 :=
  ⟨(C5_steps_run_only_after_success (serve 200 tokenAbc emptyArrayBody 200)
      "id" "secret" "code" "hook").2.2.1 "abc"
      { StatusCode := 200, Body := .ok emptyArrayBody } rfl rfl rfl,
    (C5_steps_run_only_after_success (serve 200 tokenAbc emptyArrayBody 200)
      "id" "secret" "code" "hook").2.2.2.2.2 (fun _ => "x")
      (.errorf "no activities found") rfl⟩

/-- C6 (amended): `exec` returns the error value of the first step that
fails, as it is; it returns `nil` exactly when all three steps succeed; and
`main` exits with status 0 exactly when `exec` returns `nil`, with status 1
(the error logged) when `exec` returns an error. -/
theorem C6_first_error_is_returned_unchanged (net : Network)
    (clientID clientSecret code webhookURL : String) :
    (∀ err, (getAccessToken net clientID clientSecret code).2.2 = some err →
        (exec net clientID clientSecret code webhookURL).2 = .returned (some err)) ∧
      (∀ tok err, (getAccessToken net clientID clientSecret code).2 = (tok, none) →
        (getLatestActivity net tok).2.2 = some err →
        (exec net clientID clientSecret code webhookURL).2 = .returned (some err)) ∧
      (∀ tok activity message err,
        (getAccessToken net clientID clientSecret code).2 = (tok, none) →
        (getLatestActivity net tok).2 = (activity, none) →
        generateSlackMessage activity = .ok message →
        (postToSlack net webhookURL message).2 = some err →
        (exec net clientID clientSecret code webhookURL).2 = .returned (some err)) ∧
      ((exec net clientID clientSecret code webhookURL).2 = .returned none ↔
        ∃ tok activity message,
          (getAccessToken net clientID clientSecret code).2 = (tok, none) ∧
          (getLatestActivity net tok).2 = (activity, none) ∧
          generateSlackMessage activity = .ok message ∧
          (postToSlack net webhookURL message).2 = none) ∧
      (∀ getenv,
        ((main net getenv).2.status = 0 ↔
          (exec net (getenv "CLIENT_ID") (getenv "CLIENT_SECRET") (getenv "CODE")
            (getenv "WEBHOOK_URL")).2 = .returned none) ∧
        ∀ err,
          (exec net (getenv "CLIENT_ID") (getenv "CLIENT_SECRET") (getenv "CODE")
            (getenv "WEBHOOK_URL")).2 = .returned (some err) →
          (main net getenv).2 = { status := 1, logged := [err] }) := by
  refine ⟨?_, ?_, ?_, ?_, ?_⟩
  · intro err h
    rw [exec_token_error net clientID clientSecret code webhookURL err h]
  · intro tok err h1 h2
    rw [exec_activity_error net clientID clientSecret code webhookURL tok err h1 h2]
  · intro tok activity message err h1 h2 h3 h4
    rw [exec_post net clientID clientSecret code webhookURL tok activity message h1 h2 h3, h4]
  · constructor
    · intro hnil
      rcases exec_cases net clientID clientSecret code with ⟨err, h⟩ | ⟨tok, h1, hrest⟩
      · rw [exec_token_error net clientID clientSecret code webhookURL err h] at hnil
        simp at hnil
      · rcases hrest with ⟨err, h2⟩ | ⟨activity, h2, ⟨p, h3⟩ | ⟨message, h3⟩⟩
        · rw [exec_activity_error net clientID clientSecret code webhookURL tok err h1 h2]
            at hnil
          simp at hnil
        · rw [exec_panic net clientID clientSecret code webhookURL tok activity p h1 h2 h3]
            at hnil
          simp at hnil
        · rw [exec_post net clientID clientSecret code webhookURL tok activity message
            h1 h2 h3] at hnil
          exact ⟨tok, activity, message, h1, h2, h3, by simpa using hnil⟩
    · rintro ⟨tok, activity, message, h1, h2, h3, h4⟩
      rw [exec_post net clientID clientSecret code webhookURL tok activity message h1 h2 h3, h4]
  · intro getenv
    constructor
    · simp only [main]
      rcases (exec net (getenv "CLIENT_ID") (getenv "CLIENT_SECRET") (getenv "CODE")
        (getenv "WEBHOOK_URL")).2 with (_ | err) | p <;> simp [exitOf]
    · intro err h
      simp only [main, h, exitOf]

set_option maxRecDepth 100000 in
/-- C6 (witness): the webhook answers 403, the third step is the first to
fail. -/
theorem C6_first_error_is_returned_unchanged_witness :
    (exec (serve 200 tokenAbc morningRunBody 403) "id" "secret" "code" "hook").2 =
      .returned (some (.errorf "failed to post to Slack: status code 403")) :=
  (C6_first_error_is_returned_unchanged (serve 200 tokenAbc morningRunBody 403)
    "id" "secret" "code" "hook").2.2.1 "abc" (some morningRun)
    { Text := "New activity logged: Morning Run (10.00 km, 60 min)" }
    (.errorf "failed to post to Slack: status code 403") rfl (by rfl) (by rfl) (by rfl)

/-- C6 (counterexample): when the activities endpoint answers `[null]`, no
step fails and `exec` does not return `nil`, yet `main` does not exit with
status 1: `exec` panics and the process ends with status 2. -/
theorem C6_null_activity_exits_with_status_two :
    (getAccessToken (serve 200 tokenAbc nullElementBody 200) (sampleEnv "CLIENT_ID")
        (sampleEnv "CLIENT_SECRET") (sampleEnv "CODE")).2.2 = none ∧
      (getLatestActivity (serve 200 tokenAbc nullElementBody 200) "abc").2.2 = none ∧
      (exec (serve 200 tokenAbc nullElementBody 200) (sampleEnv "CLIENT_ID")
        (sampleEnv "CLIENT_SECRET") (sampleEnv "CODE") (sampleEnv "WEBHOOK_URL")).2 ≠
          .returned none ∧
      (main (serve 200 tokenAbc nullElementBody 200) sampleEnv).2.status = 2 ∧
      (main (serve 200 tokenAbc nullElementBody 200) sampleEnv).2.status ≠ 1 := by
  refine ⟨rfl, rfl, ?_, ?_, ?_⟩ <;> decide

/-- C9: end to end. When the token body decodes (as `{"access_token":"abc"}`
does), the activities body decodes to a non-empty sequence whose first
element is the activity `a`, and the webhook answers 200, `exec` returns
`nil`, `main` exits with status 0, and the one request sent to the webhook
carries the JSON object with the single member `text` whose value is the
text of `generateSlackMessage(a)`. -/
theorem C9_end_to_end_success (net : Network) (getenv : String → String)
    (resp1 resp2 resp3 : Response) (body1 body2 : Body)
    (members : List (String × JSON)) (tok : String)
    (a : Activity) (others : List (Option Activity)) (message : SlackMessage)
    (hsend1 : net.roundTrip
      (tokenRequest (getenv "CLIENT_ID") (getenv "CLIENT_SECRET") (getenv "CODE")) = .ok resp1)
    (hread1 : resp1.Body = .ok body1)
    (hbody1 : body1 = .document (.object members))
    (htoken : (members.filter fun kv => fieldMatch "access_token" kv.1).map Prod.snd =
      [.string tok])
    (hsend2 : net.roundTrip (activityRequest tok) = .ok resp2)
    (hread2 : resp2.Body = .ok body2)
    (hdecode2 : unmarshalActivities body2 = .ok (some a :: others))
    (hmessage : generateSlackMessage (some a) = .ok message)
    (hnew : net.newRequestError (getenv "WEBHOOK_URL") = none)
    (hsend3 : net.roundTrip (slackRequest (getenv "WEBHOOK_URL") message) = .ok resp3)
    (hstatus : resp3.StatusCode = 200) :
    exec net (getenv "CLIENT_ID") (getenv "CLIENT_SECRET") (getenv "CODE")
        (getenv "WEBHOOK_URL") =
      ([.getAccessToken (getenv "CLIENT_ID") (getenv "CLIENT_SECRET") (getenv "CODE"),
          .send (tokenRequest (getenv "CLIENT_ID") (getenv "CLIENT_SECRET") (getenv "CODE")),
          .getLatestActivity tok, .send (activityRequest tok),
          .postToSlack (getenv "WEBHOOK_URL") message,
          .send { Method := "POST", URL := getenv "WEBHOOK_URL", Header := [],
                  Body := .json (.object [("text", .string message.Text)]) }],
        .returned none) ∧
      (main net getenv).2 = { status := 0, logged := [] } := by
  subst hbody1
  have h1 : (getAccessToken net (getenv "CLIENT_ID") (getenv "CLIENT_SECRET")
      (getenv "CODE")).2 = (tok, none) := by
    simp only [getAccessToken, hsend1, hread1, unmarshalAccessToken_single members tok htoken]
  have h2 : (getLatestActivity net tok).2 = (some a, none) := by
    simp only [getLatestActivity, hsend2, hread2, hdecode2]
  have h3 : postToSlack net (getenv "WEBHOOK_URL") message =
      ([.postToSlack (getenv "WEBHOOK_URL") message,
        .send (slackRequest (getenv "WEBHOOK_URL") message)], none) := by
    simp [postToSlack, hnew, hsend3, hstatus]
  have hexec := exec_post net (getenv "CLIENT_ID") (getenv "CLIENT_SECRET") (getenv "CODE")
    (getenv "WEBHOOK_URL") tok (some a) message h1 h2 hmessage
  rw [getAccessToken_events, getLatestActivity_events, h3] at hexec
  constructor
  · rw [hexec]; rfl
  · simp only [main, hexec, exitOf]

set_option maxRecDepth 100000 in
/-- C9 (witness): token body `{"access_token":"abc"}`, activities body
`[{"id":1,"name":"Morning Run","distance":10000,"moving_time":3600}]` and a
webhook answering 200: the body posted is
`{"text":"New activity logged: Morning Run (10.00 km, 60 min)"}`. -/
theorem C9_end_to_end_success_witness :
    exec (serve 200 tokenAbc morningRunBody 200) "id" "secret" "code" "hook" =
      ([.getAccessToken "id" "secret" "code", .send (tokenRequest "id" "secret" "code"),
          .getLatestActivity "abc", .send (activityRequest "abc"),
          .postToSlack "hook" { Text := "New activity logged: Morning Run (10.00 km, 60 min)" },
          .send { Method := "POST", URL := "hook", Header := [],
                  Body := .json (.object
                    [("text", .string "New activity logged: Morning Run (10.00 km, 60 min)")]) }],
        .returned none) ∧
      (main (serve 200 tokenAbc morningRunBody 200) sampleEnv).2 =
        { status := 0, logged := [] } :=
  C9_end_to_end_success (serve 200 tokenAbc morningRunBody 200) sampleEnv
    { StatusCode := 200, Body := .ok tokenAbc }
    { StatusCode := 200, Body := .ok morningRunBody }
    { StatusCode := 200, Body := .ok .malformed }
    tokenAbc morningRunBody [("access_token", .string "abc")] "abc" morningRun []
    { Text := "New activity logged: Morning Run (10.00 km, 60 min)" }
    rfl rfl rfl rfl rfl rfl (by decide) (by decide) rfl rfl rfl

/-! ## Accuracy of the kilometre figure -/

theorem roundNearestEven_spec (a b : Nat) (hb : 0 < b) :
    2 * (b * roundNearestEven a b) ≤ 2 * a + b ∧
      2 * a ≤ 2 * (b * roundNearestEven a b) + b := by
  have hdm := Nat.div_add_mod a b
  have hr := Nat.mod_lt a hb
  unfold roundNearestEven
  simp only
  generalize a / b = q at *
  generalize a % b = r at *
  generalize hbq : b * q = t at *
  split_ifs <;> simp only [Nat.mul_add, Nat.mul_one, hbq] <;> omega

theorem roundNearestEven_mul (m b : Nat) (hb : 0 < b) : roundNearestEven (m * b) b = m := by
  unfold roundNearestEven
  simp [Nat.mul_div_cancel _ hb, hb]

theorem log2Loop_le (fuel n j : Nat) (h : n < 2 ^ (j + 1)) : log2Loop fuel n ≤ j := by
  induction fuel generalizing n j with
  | zero => simp [log2Loop]
  | succ fuel ih =>
    unfold log2Loop
    split_ifs with h2
    · exact Nat.zero_le _
    · cases j with
      | zero => simp at h; omega
      | succ j =>
        have : n / 2 < 2 ^ (j + 1) := by
          apply Nat.div_lt_of_lt_mul
          rw [← Nat.pow_succ']
          exact h
        have := ih (n / 2) j this
        omega

theorem binary64Round_eq (a b : Nat) :
    binary64Round a b =
      roundNearestEven (a * 2 ^ 1074) (b * 2 ^ (ilog2 (a * 2 ^ 1074 / b) - 52)) *
        2 ^ (ilog2 (a * 2 ^ 1074 / b) - 52) := by
  simp only [binary64Round, Nat.shiftLeft_eq]

/-- Integers below `2 ^ 53` convert to `float64` exactly. -/
theorem binary64Round_exact (d : Nat) (h : d < 2 ^ 53) :
    binary64Round d 1 = d * 2 ^ 1074 := by
  rw [binary64Round_eq, Nat.div_one, Nat.one_mul]
  have hlt : d * 2 ^ 1074 < 2 ^ (1126 + 1) := by
    have : (2 : Nat) ^ (1126 + 1) = 2 ^ 53 * 2 ^ 1074 := by rw [← Nat.pow_add]
    rw [this]
    exact Nat.mul_lt_mul_of_pos_right h (Nat.two_pow_pos _)
  have hk : ilog2 (d * 2 ^ 1074) - 52 ≤ 1074 := by
    have := log2Loop_le (d * 2 ^ 1074) (d * 2 ^ 1074) 1126 hlt
    unfold ilog2
    omega
  generalize ilog2 (d * 2 ^ 1074) - 52 = k at hk
  have hsplit : d * 2 ^ 1074 = d * 2 ^ (1074 - k) * 2 ^ k := by
    rw [Nat.mul_assoc, ← Nat.pow_add, Nat.sub_add_cancel hk]
  rw [hsplit, roundNearestEven_mul _ _ (Nat.two_pow_pos k)]


/-- The quotient `float64(d)/1000` lies within `2 ^ (-10)` of `d / 1000` when
`d < 2 ^ 53`; stated on units, cleared of denominators. -/
theorem quotient_close (d : Nat) (h : d < 2 ^ 53) :
    2000 * binary64Round (d * 2 ^ 1074) (1000 * 2 ^ 1074) ≤
        2 * (d * 2 ^ 1074) + 1000 * 2 ^ 1065 ∧
      2 * (d * 2 ^ 1074) ≤
        2000 * binary64Round (d * 2 ^ 1074) (1000 * 2 ^ 1074) + 1000 * 2 ^ 1065 := by
  rw [binary64Round_eq]
  have hW : 0 < 2 ^ 1074 := Nat.two_pow_pos 1074
  generalize hWdef : 2 ^ 1074 = W at *
  have hquot : d * W * W / (1000 * W) < 2 ^ (1117 + 1) := by
    rw [Nat.mul_div_mul_right _ _ hW, Nat.div_lt_iff_lt_mul (by norm_num)]
    have h1 : d * W < 2 ^ 53 * W := Nat.mul_lt_mul_of_pos_right h hW
    have h2 : 2 ^ 53 * W ≤ 2 ^ (1117 + 1) * 1000 := by
      have : (2 : Nat) ^ (1117 + 1) = 2 ^ 44 * W := by rw [← hWdef, ← Nat.pow_add]
      rw [this, Nat.mul_right_comm]
      exact Nat.mul_le_mul_right W (by norm_num)
    omega
  have hk : ilog2 (d * W * W / (1000 * W)) - 52 ≤ 1065 := by
    have := log2Loop_le (d * W * W / (1000 * W)) (d * W * W / (1000 * W)) 1117 hquot
    unfold ilog2
    omega
  generalize ilog2 (d * W * W / (1000 * W)) - 52 = k at hk
  have hkP : 2 ^ k ≤ 2 ^ 1065 := Nat.pow_le_pow_right (by norm_num) hk
  have hb : 0 < 1000 * W * 2 ^ k := by positivity
  obtain ⟨h1, h2⟩ := roundNearestEven_spec (d * W * W) (1000 * W * 2 ^ k) hb
  generalize roundNearestEven (d * W * W) (1000 * W * 2 ^ k) = m at h1 h2
  generalize 2 ^ 1065 = P at hkP
  generalize 2 ^ k = K at *
  have e1 : 2 * (1000 * W * K * m) = W * (2000 * (m * K)) := by ring
  have e2 : 2 * (d * W * W) + 1000 * W * K = W * (2 * (d * W) + 1000 * K) := by ring
  have e3 : 2 * (1000 * W * K * m) + 1000 * W * K = W * (2000 * (m * K) + 1000 * K) := by ring
  have e4 : 2 * (d * W * W) = W * (2 * (d * W)) := by ring
  rw [e1, e2] at h1
  rw [e4, e3] at h2
  have h1' := Nat.le_of_mul_le_mul_left h1 hW
  have h2' := Nat.le_of_mul_le_mul_left h2 hW
  constructor <;> omega

/-- For `d < 2 ^ 53` the hundredths printed for `float64(d)/1000` are within
half a hundredth of `d / 1000`. -/
theorem hundredths_close (d : Nat) (h : d < 2 ^ 53) :
    10 * roundNearestEven (100 * binary64Round (d * 2 ^ 1074) (1000 * 2 ^ 1074))
        (2 ^ 1074) ≤ d + 5 ∧
      d ≤ 10 * roundNearestEven (100 * binary64Round (d * 2 ^ 1074) (1000 * 2 ^ 1074))
        (2 ^ 1074) + 5 := by
  obtain ⟨hq1, hq2⟩ := quotient_close d h
  generalize binary64Round (d * 2 ^ 1074) (1000 * 2 ^ 1074) = U at *
  obtain ⟨hc1, hc2⟩ := roundNearestEven_spec (100 * U) (2 ^ 1074) (Nat.two_pow_pos _)
  generalize roundNearestEven (100 * U) (2 ^ 1074) = c at *
  have hWP : (2 : Nat) ^ 1074 = 512 * 2 ^ 1065 := by
    have h9 : (2 : Nat) ^ 9 = 512 := by norm_num
    have : (2 : Nat) ^ 1074 = 2 ^ 9 * 2 ^ 1065 := by rw [← Nat.pow_add]
    rw [this, h9]
  have hP : 0 < 2 ^ 1065 := Nat.two_pow_pos 1065
  rw [hWP] at hq1 hq2 hc1 hc2
  generalize 2 ^ 1065 = P at *
  have e1 : 512 * P * c = 512 * (P * c) := by ring
  have e2 : d * (512 * P) = 512 * (P * d) := by ring
  rw [e1] at hc1 hc2
  rw [e2] at hq1 hq2
  have g1 : P * (10240 * c) ≤ P * (1024 * d + 6143) := by
    have a1 : P * (10240 * c) = 10240 * (P * c) := by ring
    have a2 : P * (1024 * d + 6143) = 1024 * (P * d) + 6143 * P := by ring
    rw [a1, a2]; omega
  have g2 : P * (1024 * d) ≤ P * (10240 * c + 6143) := by
    have a1 : P * (1024 * d) = 1024 * (P * d) := by ring
    have a2 : P * (10240 * c + 6143) = 10240 * (P * c) + 6143 * P := by ring
    rw [a1, a2]; omega
  have g1' := Nat.le_of_mul_le_mul_left g1 hP
  have g2' := Nat.le_of_mul_le_mul_left g2 hP
  constructor <;> omega

theorem float64_ofNat (d : Nat) (h : d < 2 ^ 53) :
    float64 (d : Int) = { neg := false, units := d * 2 ^ 1074 } := by
  simp only [float64, Int.natAbs_ofNat, binary64Round_exact d h]
  congr 1

theorem formatFixed2_nonneg (x : Float64) (hx : x.neg = false) :
    formatFixed2 x =
      toString (x.hundredths / 100) ++ "." ++ toString (x.hundredths / 10 % 10) ++
        toString (x.hundredths % 10) := by
  have e1 : x.hundredths % 100 / 10 % 10 = x.hundredths / 10 % 10 := by omega
  have e2 : x.hundredths % 100 % 10 = x.hundredths % 10 := by omega
  simp only [formatFixed2, twoDigits, hx, e1, e2, Bool.false_eq_true, if_false,
    String.empty_append, String.append_assoc]

/-- C7 (amended): for a distance `d` with `0 ≤ d < 2 ^ 53` the text is
"New activity logged: " ++ name ++ " (" ++ km ++ " km, " ++ min ++ " min)",
where km shows a whole part, a point and exactly two digits, stands for a
number of hundredths `c` within half a hundredth of `d / 1000`, and min is
the decimal rendering of the moving time divided by 60. -/
theorem C7_message_text (a : Activity) (h0 : 0 ≤ a.Distance)
    (hlt : a.Distance < 9007199254740992) :
    ∃ c : Nat, |(c : ℚ) / 100 - (a.Distance : ℚ) / 1000| ≤ 1 / 200 ∧
      generateSlackMessage (some a) =
        .ok { Text := "New activity logged: " ++ a.Name ++ " (" ++
          (toString (c / 100) ++ "." ++ toString (c / 10 % 10) ++ toString (c % 10)) ++
          " km, " ++ formatInt (a.MovingTime.tdiv 60) ++ " min)" } := by
  obtain ⟨d, hd⟩ := Int.eq_ofNat_of_zero_le h0
  have hd53 : d < 2 ^ 53 := by
    have : (d : Int) < 9007199254740992 := hd ▸ hlt
    have h53 : (2 : Nat) ^ 53 = 9007199254740992 := by norm_num
    omega
  have hkm : distanceKm a =
      { neg := false, units := binary64Round (d * 2 ^ 1074) (1000 * 2 ^ 1074) } := by
    have h1000 := float64_ofNat 1000 (by norm_num)
    have hdist := float64_ofNat d hd53
    simp only [Nat.cast_ofNat] at h1000
    simp only [distanceKm, hd, hdist, h1000, Float64.div, bne_self_eq_false]
  have hhund : (distanceKm a).hundredths =
      roundNearestEven (100 * binary64Round (d * 2 ^ 1074) (1000 * 2 ^ 1074)) (2 ^ 1074) := by
    simp only [hkm, Float64.hundredths, Nat.shiftLeft_eq, Nat.one_mul]
  obtain ⟨hc1, hc2⟩ := hundredths_close d hd53
  rw [← hhund] at hc1 hc2
  refine ⟨(distanceKm a).hundredths, ?_, ?_⟩
  · have q1 : (10 : ℚ) * ((distanceKm a).hundredths : ℚ) ≤ (d : ℚ) + 5 := by exact_mod_cast hc1
    have q2 : (d : ℚ) ≤ 10 * ((distanceKm a).hundredths : ℚ) + 5 := by exact_mod_cast hc2
    have hdq : (a.Distance : ℚ) = (d : ℚ) := by rw [hd]; norm_cast
    rw [hdq, abs_le]
    constructor <;> linarith
  · have hneg : (distanceKm a).neg = false := by rw [hkm]
    simp only [generateSlackMessage, formatFixed2_nonneg _ hneg, movingMinutes]

set_option maxRecDepth 100000 in
/-- C7 (witness): the two examples, distance 5250 with time 1800 and
"Morning Run" with distance 10000 and time 3600. -/
theorem C7_message_text_witness :
    (∃ c : Nat, |(c : ℚ) / 100 - ((10000 : Int) : ℚ) / 1000| ≤ 1 / 200 ∧
      generateSlackMessage (some morningRun) =
        .ok { Text := "New activity logged: " ++ "Morning Run" ++ " (" ++
          (toString (c / 100) ++ "." ++ toString (c / 10 % 10) ++ toString (c % 10)) ++
          " km, " ++ formatInt ((3600 : Int).tdiv 60) ++ " min)" }) ∧
      generateSlackMessage (some morningRun) =
        .ok { Text := "New activity logged: Morning Run (10.00 km, 60 min)" } ∧
      generateSlackMessage (some { ID := 2, Name := "Run", Distance := 5250, MovingTime := 1800 }) =
        .ok { Text := "New activity logged: Run (5.25 km, 30 min)" } :=
  ⟨C7_message_text morningRun (by decide) (by decide), by decide, by decide⟩

set_option maxRecDepth 100000 in
/-- C7 (counterexample): for the distance 9223372036854775807 (the largest
`int` of a 64-bit platform) the text shows 9223372036854776.00 km, more than
a hundredth away from `d / 1000 = 9223372036854775.807`. -/
theorem C7_largest_distance_is_off :
    generateSlackMessage (some
        { ID := 1, Name := "Morning Run", Distance := 9223372036854775807, MovingTime := 3600 }) =
        .ok { Text := "New activity logged: Morning Run (9223372036854776.00 km, 60 min)" } ∧
      ¬ |(922337203685477600 : ℚ) / 100 - ((9223372036854775807 : Int) : ℚ) / 1000| ≤ 1 / 100 := by
  refine ⟨by decide, ?_⟩
  rw [abs_le]
  norm_num

end StntS
